import Mathlib

/-!
Verification of the prcapi transport, mapper and client lifecycle layers.

The definitions below are a shallow embedding of `src/prcapi/http.py`,
`src/prcapi/models.py`, `src/prcapi/exceptions.py` and
`src/prcapi/client.py`.  JSON values decoded by aiohttp are modelled by
the inductive `Json`; Python numbers (int and float alike) are modelled
by rationals.  Raising an exception is modelled by returning a tagged
`Outcome` (for the classified exceptions of `exceptions.py`) or the
special tag `Outcome.pyError` (for Python-level AttributeError /
TypeError / ValueError escaping from duck-typed access on malformed
bodies).
-/

/-- A decoded JSON value, as returned by aiohttp `resp.json()`.
Numbers are rationals (Python int and float collapsed). -/
inductive Json where
  | null : Json
  | bool (b : Bool) : Json
  | num (q : ℚ) : Json
  | str (s : String) : Json
  | arr (xs : List Json) : Json
  | obj (fields : List (String × Json)) : Json


/-- Python truthiness of a decoded JSON value: None, False, 0, "", [] and
{} are falsy, everything else truthy. -/
def isTruthy : Json → Bool
  | .null => false
  | .bool b => b
  | .num q => q != 0
  | .str s => s != ""
  | .arr xs => !xs.isEmpty
  | .obj fs => !fs.isEmpty

/-- Dictionary field access: `some v` when the key is present (even with a
null value), `none` when the receiver is not an object or lacks the key. -/
def objGet : Json → String → Option Json
  | .obj fs, k => (fs.find? (fun p => p.1 == k)).map Prod.snd
  | _, _ => none

/-- Python `d.get(k)`: returns Python None (here `none`) both when the key
is absent and when its value is JSON null. -/
def pyGetOpt (j : Json) (k : String) : Option Json :=
  match objGet j k with
  | some .null => none
  | x => x

/-- Python `data or {}` where `data` is an optional decoded body:
None and every falsy value are replaced by the empty dict. -/
def orEmptyObj : Option Json → Json
  | none => .obj []
  | some v => if isTruthy v then v else .obj []

/-- Value of digit characters read in base 10. -/
def digitsVal (cs : List Char) : Nat :=
  cs.foldl (fun n c => 10 * n + (c.toNat - 48)) 0

/-- Strip leading and trailing whitespace from a character list. -/
def stripBlanks (cs : List Char) : List Char :=
  ((cs.dropWhile Char.isWhitespace).reverse.dropWhile Char.isWhitespace).reverse

/-- Leading sign of a numeric literal. -/
def splitSign : List Char → Int × List Char
  | '+' :: rest => (1, rest)
  | '-' :: rest => (-1, rest)
  | cs => (1, cs)

/-- Models Python `float(s)` on plain decimal strings: optional sign,
digits with an optional fraction and exponent, surrounding whitespace
stripped.  Returns `none` (a ValueError) on anything else; the special
forms `inf`/`nan` and digit-group underscores, which CPython also
accepts, have no rational counterpart and are left outside the model —
no API body in any verified property uses them. -/
def parseDecimalQ (s : String) : Option ℚ :=
  let cs := stripBlanks s.toList
  let p := splitSign cs
  let m := p.2.span (fun c => c != 'e' && c != 'E')
  let expVal : Option Int :=
    match m.2 with
    | [] => some 0
    | _ :: ecs =>
      let ep := splitSign ecs
      if !ep.2.isEmpty && ep.2.all Char.isDigit then some (ep.1 * (digitsVal ep.2 : Int))
      else none
  let ipart := m.1.takeWhile (fun c => c != '.')
  let frest := m.1.dropWhile (fun c => c != '.')
  let fpart := frest.drop 1
  if ipart.all Char.isDigit && fpart.all Char.isDigit && (!ipart.isEmpty || !fpart.isEmpty) then
    match expVal with
    | none => none
    | some e =>
      let mant : Int := p.1 * (digitsVal (ipart ++ fpart) : Int)
      let scale : Int := e - fpart.length
      some (if 0 ≤ scale then mkRat (mant * (10 : Int) ^ scale.toNat) 1
            else mkRat mant ((10 : Nat) ^ (-scale).toNat))
  else none

/-- Models Python `float(x)` applied to a decoded JSON value: numbers
convert to themselves, booleans to 0/1, numeric strings parse; null,
arrays, objects and non-numeric strings raise (modelled as `none`). -/
def pyFloat : Json → Option ℚ
  | .num q => some q
  | .bool b => some (if b then 1 else 0)
  | .str s => parseDecimalQ s
  | _ => none

/-- One HTTP response as seen by `HTTPClient.request`.  `jsonBody` is the
value `resp.json()` would produce under a JSON content type (`none` when
parsing fails); `contentLength` models `resp.content_length` with 0
covering both an absent header and a zero length (both falsy in the
test of the source); `bucketHeader` is the `X-RateLimit-Bucket` header. -/
structure Response where
  status : Nat
  contentType : String
  jsonBody : Option Json
  contentLength : Nat
  textBody : String
  reason : Option String
  bucketHeader : Option String


/-- From http.py lines 104-108: the JSON body is only consulted when the
content type is "application/json"; a body of JSON null decodes to
Python None and so leaves `data` unset, like a parse failure. -/
def jsonOrNone (r : Response) : Option Json :=
  if r.contentType = "application/json" then
    match r.jsonBody with
    | some .null => none
    | x => x
  else none

/-- From http.py lines 103-111: `data` after the decode prologue — the JSON
body when available, else `{"message": <raw text>}` when the response
has content, else None. -/
def decodeData (r : Response) : Option Json :=
  match jsonOrNone r with
  | some v => some v
  | none => if r.contentLength ≠ 0 then some (.obj [("message", .str r.textBody)]) else none

/-- The observable termination of one `HTTPClient.request` call:
a returned payload or one of the raised exceptions of exceptions.py.
`pyError` models a Python-level AttributeError/TypeError/ValueError
escaping from `.get` on a non-dict body or from a failed `float()` —
none of the classified exception classes. -/
inductive Outcome where
  | success (data : Option Json) : Outcome
  | forbidden (message : Json) : Outcome
  | rateLimited (message : Json) (retryAfter : ℚ) (bucket : Option Json) : Outcome
  | httpError (status : Nat) (message : Json) (data : Option Json) : Outcome
  | pyError : Outcome


/-- Whether an outcome is the classified rate-limit failure
(the `RateLimited` exception of exceptions.py). -/
def Outcome.isRateLimitedKind : Outcome → Bool
  | .rateLimited _ _ _ => true
  | _ => false

/-- Whether an outcome is the generic `HTTPException` failure. -/
def Outcome.isGenericKind : Outcome → Bool
  | .httpError _ _ _ => true
  | _ => false

/-- From http.py line 133: `resp.reason or "HTTP <status>"`. -/
def reasonDefault (r : Response) : String :=
  match r.reason with
  | some s => if s ≠ "" then s else "HTTP " ++ toString r.status
  | none => "HTTP " ++ toString r.status

/-- From http.py line 124: `body.get("bucket") or resp.headers.get("X-RateLimit-Bucket")`:
the bucket of the body when present and truthy, else the header (which may be
absent, giving Python None). -/
def pyBucket (body : Json) (r : Response) : Option Json :=
  match objGet body "bucket" with
  | some v => if isTruthy v then some v else r.bucketHeader.map Json.str
  | none => r.bucketHeader.map Json.str

/-- What one iteration of the attempt loop does with its response. -/
inductive StepResult where
  | done (o : Outcome) : StepResult
  | retry (t : ℚ) : StepResult


/-- One iteration of the `for attempt in range(2)` loop of
`HTTPClient.request` (http.py lines 99-134): classify the response,
returning, raising, or — only on the first attempt with a positive
retry_after — sleeping `retry_after` seconds and retrying. -/
def attemptStep (attempt : Nat) (r : Response) : StepResult :=
  if r.status = 200 then
    .done (.success (decodeData r))
  else if r.status = 403 then
    match orEmptyObj (decodeData r) with
    | .obj fs => .done (.forbidden ((objGet (.obj fs) "message").getD (.str "Unauthorized")))
    | _ => .done .pyError
  else if r.status = 429 then
    match orEmptyObj (decodeData r) with
    | .obj fs =>
      match pyFloat ((objGet (.obj fs) "retry_after").getD (.num 5)) with
      | none => .done .pyError
      | some ra =>
        if attempt = 0 ∧ 0 < ra then .retry ra
        else .done (.rateLimited ((objGet (.obj fs) "message").getD (.str "Rate limited")) ra
                      (pyBucket (.obj fs) r))
    | _ => .done .pyError
  else
    match orEmptyObj (decodeData r) with
    | .obj fs => .done (.httpError r.status
        ((objGet (.obj fs) "message").getD (.str (reasonDefault r))) (decodeData r))
    | _ => .done .pyError

/-- The result of one logical `HTTPClient.request` call: the sleeps
performed, the number of network attempts consumed, and how it ended. -/
structure RequestResult where
  sleeps : List ℚ
  attempts : Nat
  outcome : Outcome


/-- From http.py line 136: the defensive `raise HTTPException(429, "Rate limited")`
after the attempt loop. -/
def exhaustFallback : Outcome := .httpError 429 (.str "Rate limited") none

/-- Models `HTTPClient.request` over the two responses the server would give to
the two possible attempts: run attempt 0; on a retry, sleep and run
attempt 1; should both attempts fall through (the loop exhausting), the
fallback of line 136 fires. -/
def request (r0 r1 : Response) : RequestResult :=
  match attemptStep 0 r0 with
  | .done o => ⟨[], 1, o⟩
  | .retry t =>
    match attemptStep 1 r1 with
    | .done o => ⟨[t], 2, o⟩
    | .retry t2 => ⟨[t, t2], 2, exhaustFallback⟩

/-! ## Response mapper (models.py)

Each record keeps its fields as raw decoded values, exactly as the
Python dataclasses receive them from `data.get(...)`; `from_api` takes
the value passed in the source (any decoded value) and yields `none` —
a raised AttributeError — when that value is not a mapping. -/

/-- Server status record (models.py `Server`). -/
structure Server where
  name : Json
  owner_id : Json
  co_owner_ids : Json
  current_players : Json
  max_players : Json
  join_key : Json
  acc_verified_req : Json
  team_balance : Json

/-- From models.py, `Server.from_api`. -/
def Server.from_api : Json → Option Server
  | .obj fs => some
      { name := (objGet (.obj fs) "Name").getD (.str "")
        owner_id := (objGet (.obj fs) "OwnerId").getD (.num 0)
        co_owner_ids := (objGet (.obj fs) "CoOwnerIds").getD (.arr [])
        current_players := (objGet (.obj fs) "CurrentPlayers").getD (.num 0)
        max_players := (objGet (.obj fs) "MaxPlayers").getD (.num 0)
        join_key := (objGet (.obj fs) "JoinKey").getD (.str "")
        acc_verified_req := (objGet (.obj fs) "AccVerifiedReq").getD (.str "")
        team_balance := (objGet (.obj fs) "TeamBalance").getD (.bool false) }
  | _ => none

/-- Player record (models.py `Player`); `callsign` is `data.get("Callsign")`,
Python None (here `none`) when absent. -/
structure Player where
  player : Json
  permission : Json
  callsign : Option Json
  team : Json

/-- From models.py, `Player.from_api`. -/
def Player.from_api : Json → Option Player
  | .obj fs => some
      { player := (objGet (.obj fs) "Player").getD (.str "")
        permission := (objGet (.obj fs) "Permission").getD (.str "")
        callsign := pyGetOpt (.obj fs) "Callsign"
        team := (objGet (.obj fs) "Team").getD (.str "") }
  | _ => none

/-- Join log record (models.py `JoinLog`). -/
structure JoinLog where
  join : Json
  timestamp : Json
  player : Json

/-- From models.py, `JoinLog.from_api`. -/
def JoinLog.from_api : Json → Option JoinLog
  | .obj fs => some
      { join := (objGet (.obj fs) "Join").getD (.bool false)
        timestamp := (objGet (.obj fs) "Timestamp").getD (.num 0)
        player := (objGet (.obj fs) "Player").getD (.str "") }
  | _ => none

/-- Kill log record (models.py `KillLog`). -/
structure KillLog where
  killed : Json
  timestamp : Json
  killer : Json

/-- From models.py, `KillLog.from_api`. -/
def KillLog.from_api : Json → Option KillLog
  | .obj fs => some
      { killed := (objGet (.obj fs) "Killed").getD (.str "")
        timestamp := (objGet (.obj fs) "Timestamp").getD (.num 0)
        killer := (objGet (.obj fs) "Killer").getD (.str "") }
  | _ => none

/-- Command log record (models.py `CommandLog`). -/
structure CommandLog where
  player : Json
  timestamp : Json
  command : Json

/-- From models.py, `CommandLog.from_api`. -/
def CommandLog.from_api : Json → Option CommandLog
  | .obj fs => some
      { player := (objGet (.obj fs) "Player").getD (.str "")
        timestamp := (objGet (.obj fs) "Timestamp").getD (.num 0)
        command := (objGet (.obj fs) "Command").getD (.str "") }
  | _ => none

/-- Mod call record (models.py `ModCall`). -/
structure ModCall where
  caller : Json
  moderator : Option Json
  timestamp : Json

/-- From models.py, `ModCall.from_api`. -/
def ModCall.from_api : Json → Option ModCall
  | .obj fs => some
      { caller := (objGet (.obj fs) "Caller").getD (.str "")
        moderator := pyGetOpt (.obj fs) "Moderator"
        timestamp := (objGet (.obj fs) "Timestamp").getD (.num 0) }
  | _ => none

/-- Vehicle record (models.py `Vehicle`). -/
structure Vehicle where
  texture : Option Json
  name : Json
  owner : Json

/-- From models.py, `Vehicle.from_api`. -/
def Vehicle.from_api : Json → Option Vehicle
  | .obj fs => some
      { texture := pyGetOpt (.obj fs) "Texture"
        name := (objGet (.obj fs) "Name").getD (.str "")
        owner := (objGet (.obj fs) "Owner").getD (.str "") }
  | _ => none

/-- Staff record (models.py `Staff`). -/
structure Staff where
  co_owners : Json
  admins : Json
  mods : Json

/-- From models.py, `Staff.from_api`. -/
def Staff.from_api : Json → Option Staff
  | .obj fs => some
      { co_owners := (objGet (.obj fs) "CoOwners").getD (.arr [])
        admins := (objGet (.obj fs) "Admins").getD (.obj [])
        mods := (objGet (.obj fs) "Mods").getD (.obj []) }
  | _ => none

/-! ## Endpoint result mapping (client.py)

Each `…_of` function is the pure tail of the corresponding client
method: what it does with the decoded value returned by
`HTTPClient.request` (here `Option Json`, with `none` for Python None).
An outer `Option` result of `none` models a raised Python error. -/

/-- From client.py, `get_server` tail: `Server.from_api(data)` —
`data.get` raises when `data` is None or not a mapping. -/
def get_server_of (data : Option Json) : Option Server :=
  data.bind Server.from_api

/-- From client.py, `get_players` tail: list payloads map elementwise,
anything else gives `[]`. -/
def get_players_of (data : Option Json) : Option (List Player) :=
  match data with
  | some (.arr xs) => xs.mapM Player.from_api
  | _ => some []

/-- From client.py, `get_joinlogs` tail. -/
def get_joinlogs_of (data : Option Json) : Option (List JoinLog) :=
  match data with
  | some (.arr xs) => xs.mapM JoinLog.from_api
  | _ => some []

/-- From client.py, `get_queue` tail: the raw list, or `[]` for a non-list. -/
def get_queue_of (data : Option Json) : List Json :=
  match data with
  | some (.arr xs) => xs
  | _ => []

/-- From client.py, `get_killlogs` tail. -/
def get_killlogs_of (data : Option Json) : Option (List KillLog) :=
  match data with
  | some (.arr xs) => xs.mapM KillLog.from_api
  | _ => some []

/-- From client.py, `get_commandlogs` tail. -/
def get_commandlogs_of (data : Option Json) : Option (List CommandLog) :=
  match data with
  | some (.arr xs) => xs.mapM CommandLog.from_api
  | _ => some []

/-- From client.py, `get_modcalls` tail. -/
def get_modcalls_of (data : Option Json) : Option (List ModCall) :=
  match data with
  | some (.arr xs) => xs.mapM ModCall.from_api
  | _ => some []

/-- From client.py, `get_bans` tail: the raw dict, or `{}` for a non-dict. -/
def get_bans_of (data : Option Json) : Json :=
  match data with
  | some (.obj fs) => .obj fs
  | _ => .obj []

/-- From client.py, `get_vehicles` tail. -/
def get_vehicles_of (data : Option Json) : Option (List Vehicle) :=
  match data with
  | some (.arr xs) => xs.mapM Vehicle.from_api
  | _ => some []

/-- From client.py, `get_staff` tail: `Staff.from_api(data or {})` — note the
absence of an isinstance guard: a truthy non-mapping payload reaches
`from_api` unchecked. -/
def get_staff_of (data : Option Json) : Option Staff :=
  Staff.from_api (orEmptyObj data)

/-- Whether a decoded payload is a Python list. -/
def isListData : Option Json → Bool
  | some (.arr _) => true
  | _ => false

/-- Whether a decoded payload is a Python dict. -/
def isDictData : Option Json → Bool
  | some (.obj _) => true
  | _ => false

/-- Python truthiness of an optional decoded payload (None is falsy). -/
def optTruthy : Option Json → Bool
  | some v => isTruthy v
  | none => false

/-! ## Session and transport lifecycle (http.py) -/

/-- The underlying aiohttp session, reduced to its observable
closed flag. -/
structure Session where
  closed : Bool

/-- The mutable state of `HTTPClient` (http.py `__init__`):
credentials, the optional session handle, and whether the client owns
the session (it does exactly when none was injected). -/
structure HTTPClient where
  server_key : String
  authorization : Option String
  session : Option Session
  owned_session : Bool

/-- From http.py, `HTTPClient.__init__`: `_owned_session = session is None`. -/
def HTTPClient.init (server_key : String) (authorization : Option String)
    (session : Option Session) : HTTPClient :=
  ⟨server_key, authorization, session, session.isNone⟩

/-- Models the source test `self._session and not self._session.closed`. -/
def sessionOpen : Option Session → Bool
  | some s => !s.closed
  | none => false

/-- From http.py, `HTTPClient.close`: closes the session only when it is owned,
present and still open.  The Bool reports whether the underlying
session was actually released by this call. -/
def HTTPClient.close (c : HTTPClient) : HTTPClient × Bool :=
  if c.owned_session && sessionOpen c.session then
    ({ c with session := some ⟨true⟩ }, true)
  else (c, false)

/-- From http.py, `HTTPClient._get_session`: reuse the session unless absent or
closed, in which case a fresh open one is created (ownership is not
re-examined). -/
def HTTPClient.get_session (c : HTTPClient) : HTTPClient × Session :=
  match c.session with
  | some s => if s.closed then ({ c with session := some ⟨false⟩ }, ⟨false⟩) else (c, s)
  | none => ({ c with session := some ⟨false⟩ }, ⟨false⟩)

/-! ## Client lifecycle and event registration (client.py) -/

/-- A registered handler: its `__name__` and whether
`asyncio.iscoroutinefunction` accepts it. -/
structure Handler where
  name : String
  isCoroutineFn : Bool

/-- The mutable state of `Client` (client.py `__init__`). -/
structure Client where
  server_key : Option String
  authorization : Option String
  http : Option HTTPClient
  on_ready : Option Handler
  events : List (String × Handler)
  closed : Bool

/-- From client.py, `Client.__init__`. -/
def Client.init (server_key : Option String) (authorization : Option String) : Client :=
  ⟨server_key, authorization, none, none, [], false⟩

/-- Python dict assignment `self._events[name] = coro`: any previous
entry under the key is replaced. -/
def eventsInsert (tbl : List (String × Handler)) (k : String) (h : Handler) :
    List (String × Handler) :=
  tbl.filter (fun p => p.1 != k) ++ [(k, h)]

/-- Lookup in the name-keyed handler table. -/
def eventsLookup (tbl : List (String × Handler)) (k : String) : Option Handler :=
  (tbl.find? (fun p => p.1 == k)).map Prod.snd

/-- From client.py, `Client.event`: reject (TypeError, modelled `none`) any
handler that is not a coroutine function; store a handler named
"on_ready" as the singular ready callback and any other handler in the
name-keyed table.  (The `hasattr` guard of the source re-creating `_events`
never fires, since `__init__` always sets the table.) -/
def Client.event (c : Client) (h : Handler) : Option Client :=
  if !h.isCoroutineFn then none
  else if h.name = "on_ready" then some { c with on_ready := some h }
  else some { c with events := eventsInsert c.events h.name h }

/-- From client.py, `Client._ensure_http`: reuse the transport when present;
otherwise fail (RuntimeError, modelled `none`) when the key is unset or
empty, else construct a fresh `HTTPClient` with no injected session. -/
def Client.ensure_http (c : Client) : Option (Client × HTTPClient) :=
  match c.http with
  | some h => some (c, h)
  | none =>
    match c.server_key with
    | some k =>
      if k = "" then none
      else some ({ c with http := some (HTTPClient.init k c.authorization none) },
                 HTTPClient.init k c.authorization none)
    | none => none

/-- From client.py, `Client.close`: a no-op once closed; otherwise close and
drop the transport and set the closed flag.  The Bool reports whether
an underlying session was released. -/
def Client.close (c : Client) : Client × Bool :=
  if c.closed then (c, false)
  else
    match c.http with
    | some h => ({ c with http := none, closed := true }, (HTTPClient.close h).2)
    | none => ({ c with http := none, closed := true }, false)

/-- From client.py, `get_server` head: ensure the transport, then execute the
request (whose two potential attempts are answered by `r0`, `r1`).
`none` models the RuntimeError of `_ensure_http`. -/
def Client.get_server_op (c : Client) (r0 r1 : Response) :
    Option (Client × RequestResult) :=
  (Client.ensure_http c).map (fun p => (p.1, request r0 r1))

/-! ## Helper lemmas about the attempt loop -/

/-- On the second iteration of the loop the retry branch is closed
(`attempt == 0` fails), so the attempt always terminates the call. -/
theorem attemptStep_one_done (r : Response) : ∃ o, attemptStep 1 r = StepResult.done o := by
  unfold attemptStep
  repeat' split
  all_goals first
    | exact ⟨_, rfl⟩
    | (rename_i hcond; exact absurd hcond.1 Nat.one_ne_zero)

/-- No terminating iteration of the loop produces the post-loop fallback
value: the only `httpError` with status 429 would have to come from the
generic branch, which is guarded by `status ≠ 429`. -/
theorem attemptStep_done_ne_fallback (a : Nat) (r : Response) (o : Outcome)
    (h : attemptStep a r = .done o) : o ≠ exhaustFallback := by
  unfold attemptStep at h
  unfold exhaustFallback
  split at h
  · cases h; simp
  · split at h
    · split at h
      · cases h; simp
      · cases h; simp
    · split at h
      · split at h
        · split at h
          · cases h; simp
          · split at h
            · cases h
            · cases h; simp
        · cases h; simp
      · rename_i h200 h403 h429
        split at h
        · cases h
          intro heq
          injection heq with h1 h2 h3
          exact h429 h1
        · cases h; simp

/-! ## Claim theorems -/

/-- Claim C6: mapping every record kind from an empty input mapping
yields the documented default for every field and never raises:
Server gets name "", owner_id 0, co_owner_ids [], current_players 0,
max_players 0, join_key "", acc_verified_req "", team_balance False;
Player gets "" for the string fields and an absent callsign; and
likewise for the remaining record kinds. -/
theorem c6_empty_mapping_defaults :
    Server.from_api (.obj []) =
      some ⟨.str "", .num 0, .arr [], .num 0, .num 0, .str "", .str "", .bool false⟩ ∧
    Player.from_api (.obj []) = some ⟨.str "", .str "", none, .str ""⟩ ∧
    JoinLog.from_api (.obj []) = some ⟨.bool false, .num 0, .str ""⟩ ∧
    KillLog.from_api (.obj []) = some ⟨.str "", .num 0, .str ""⟩ ∧
    CommandLog.from_api (.obj []) = some ⟨.str "", .num 0, .str ""⟩ ∧
    ModCall.from_api (.obj []) = some ⟨.str "", none, .num 0⟩ ∧
    Vehicle.from_api (.obj []) = some ⟨none, .str "", .str ""⟩ ∧
    Staff.from_api (.obj []) = some ⟨.arr [], .obj [], .obj []⟩ :=
  ⟨rfl, rfl, rfl, rfl, rfl, rfl, rfl, rfl⟩

/-- Claim C8: a response with HTTP 200, a JSON content type and a JSON
object body makes `request` return that body unmodified, after a single
attempt and with no suspension. -/
theorem c8_success_returns_body (r0 r1 : Response) (fs : List (String × Json))
    (hs : r0.status = 200) (hct : r0.contentType = "application/json")
    (hb : r0.jsonBody = some (.obj fs)) :
    request r0 r1 = ⟨[], 1, .success (some (.obj fs))⟩ := by
  have hd : decodeData r0 = some (.obj fs) := by
    simp [decodeData, jsonOrNone, hct, hb]
  simp [request, attemptStep, hs, hd]

/-- Witness for C8 at a concrete 200 response. -/
theorem c8_success_returns_body_witness :
    request ⟨200, "application/json", some (.obj [("Name", .str "Town")]), 24, "", none, none⟩
            ⟨200, "application/json", some (.obj []), 0, "", none, none⟩
      = ⟨[], 1, .success (some (.obj [("Name", .str "Town")]))⟩ :=
  c8_success_returns_body _ _ _ rfl rfl rfl

/-- Counterexample for C1: a first-attempt 429 whose body carries
retry_after 0 is answered by raising `RateLimited` after that single
attempt — no second attempt is made, contradicting the claim that the
retry happens immediately and that the request is not failed with
Throttled after only one attempt. -/
theorem c1_zero_retry_after_counterexample :
    request ⟨429, "application/json", some (.obj [("retry_after", .num 0)]), 21, "", none, none⟩
            ⟨200, "application/json", some (.obj [("ok", .bool true)]), 12, "", none, none⟩
      = ⟨[], 1, .rateLimited (.str "Rate limited") 0 none⟩ := rfl

/-- Claim C1 as amended: on a first-attempt 429 whose parsed retry_after
is 0 no suspension occurs, but no retry is made either — the guard
`attempt == 0 and retry_after > 0` closes both, so the call fails at
once with Throttled carrying retry_after 0. -/
theorem c1_zero_retry_after_throttles (r0 r1 : Response) (fs : List (String × Json))
    (hs : r0.status = 429) (hb : orEmptyObj (decodeData r0) = .obj fs)
    (hra : pyFloat ((objGet (.obj fs) "retry_after").getD (.num 5)) = some 0) :
    request r0 r1 =
      ⟨[], 1, .rateLimited ((objGet (.obj fs) "message").getD (.str "Rate limited")) 0
              (pyBucket (.obj fs) r0)⟩ := by
  simp [request, attemptStep, hs, hb, hra]

/-- Witness for the amended C1 at a concrete zero-retry_after response. -/
theorem c1_zero_retry_after_throttles_witness :
    request ⟨429, "application/json",
             some (.obj [("retry_after", .num 0), ("bucket", .str "bx")]), 38, "", none, none⟩
            ⟨200, "application/json", some (.obj []), 0, "", none, none⟩
      = ⟨[], 1, .rateLimited (.str "Rate limited") 0 (some (.str "bx"))⟩ :=
  c1_zero_retry_after_throttles _ _ [("retry_after", .num 0), ("bucket", .str "bx")] rfl rfl rfl

/-- Counterexample for C2: a 403 whose decoded body has no `message`
field is reported with the fallback message "Unauthorized" passed at the
raise site, not the `Forbidden` class default "Invalid or unauthorized
server key" the claim names. -/
theorem c2_forbidden_default_counterexample :
    (request ⟨403, "application/json", some (.obj []), 2, "", none, none⟩
             ⟨200, "application/json", some (.obj []), 0, "", none, none⟩).outcome
      = .forbidden (.str "Unauthorized") := rfl

/-- Claim C2 as amended: every 403 response whose decoded body is a
mapping (or absent, giving the empty mapping) makes `request` raise
Forbidden after exactly one network attempt and no suspension, with the
message taken from the `message` field of the body when present and otherwise
the fallback "Unauthorized" passed by `request` (the class default
"Invalid or unauthorized server key" is never reached). -/
theorem c2_forbidden_one_attempt (r0 r1 : Response) (fs : List (String × Json))
    (hs : r0.status = 403) (hb : orEmptyObj (decodeData r0) = .obj fs) :
    request r0 r1 =
      ⟨[], 1, .forbidden ((objGet (.obj fs) "message").getD (.str "Unauthorized"))⟩ := by
  simp [request, attemptStep, hs, hb]

/-- Witness for the amended C2 at a concrete 403 carrying a message. -/
theorem c2_forbidden_one_attempt_witness :
    request ⟨403, "application/json", some (.obj [("message", .str "bad key")]), 25, "", none, none⟩
            ⟨200, "application/json", some (.obj []), 0, "", none, none⟩
      = ⟨[], 1, .forbidden (.str "bad key")⟩ :=
  c2_forbidden_one_attempt _ _ [("message", .str "bad key")] rfl rfl

/-- Claim C5: a first-attempt 429 whose body parses to retry_after t > 0
(default 5.0, bucket from the body or the X-RateLimit-Bucket header)
suspends the caller for t seconds and makes exactly one retry; when the
second attempt is also a 429 the call raises Throttled carrying the
retry_after and bucket of the second attempt. -/
theorem c5_first_429_waits_and_retries (r0 r1 : Response) (fs0 : List (String × Json)) (t : ℚ)
    (hs0 : r0.status = 429) (hb0 : orEmptyObj (decodeData r0) = .obj fs0)
    (hra0 : pyFloat ((objGet (.obj fs0) "retry_after").getD (.num 5)) = some t)
    (ht : 0 < t) :
    (request r0 r1).sleeps = [t] ∧ (request r0 r1).attempts = 2 ∧
    (∀ fs1 t1, r1.status = 429 → orEmptyObj (decodeData r1) = .obj fs1 →
      pyFloat ((objGet (.obj fs1) "retry_after").getD (.num 5)) = some t1 →
      (request r0 r1).outcome =
        .rateLimited ((objGet (.obj fs1) "message").getD (.str "Rate limited")) t1
          (pyBucket (.obj fs1) r1)) := by
  have h0 : attemptStep 0 r0 = .retry t := by
    simp [attemptStep, hs0, hb0, hra0, ht]
  obtain ⟨o, h1⟩ := attemptStep_one_done r1
  have hreq : request r0 r1 = ⟨[t], 2, o⟩ := by
    simp [request, h0, h1]
  refine ⟨by rw [hreq], by rw [hreq], ?_⟩
  intro fs1 t1 hs1 hb1 hra1
  have h1x : attemptStep 1 r1 =
      .done (.rateLimited ((objGet (.obj fs1) "message").getD (.str "Rate limited")) t1
        (pyBucket (.obj fs1) r1)) := by
    simp [attemptStep, hs1, hb1, hra1]
  rw [hreq]
  exact StepResult.done.inj (h1.symm.trans h1x)

/-- Witness for C5: retry_after 2 on the first 429 (body bucket "b1"),
then a second 429 with retry_after 7 and a header bucket "hdr". -/
theorem c5_first_429_waits_and_retries_witness :
    (request ⟨429, "application/json",
              some (.obj [("retry_after", .num 2), ("bucket", .str "b1")]), 38, "", none, none⟩
             ⟨429, "application/json",
              some (.obj [("retry_after", .num 7)]), 21, "", none, some "hdr"⟩).sleeps = [2] ∧
    (request ⟨429, "application/json",
              some (.obj [("retry_after", .num 2), ("bucket", .str "b1")]), 38, "", none, none⟩
             ⟨429, "application/json",
              some (.obj [("retry_after", .num 7)]), 21, "", none, some "hdr"⟩).attempts = 2 ∧
    (request ⟨429, "application/json",
              some (.obj [("retry_after", .num 2), ("bucket", .str "b1")]), 38, "", none, none⟩
             ⟨429, "application/json",
              some (.obj [("retry_after", .num 7)]), 21, "", none, some "hdr"⟩).outcome
      = .rateLimited (.str "Rate limited") 7 (some (.str "hdr")) := by
  obtain ⟨ha, hb, hc⟩ := c5_first_429_waits_and_retries
    ⟨429, "application/json",
      some (.obj [("retry_after", .num 2), ("bucket", .str "b1")]), 38, "", none, none⟩
    ⟨429, "application/json",
      some (.obj [("retry_after", .num 7)]), 21, "", none, some "hdr"⟩
    [("retry_after", .num 2), ("bucket", .str "b1")] 2 rfl rfl rfl (by norm_num)
  exact ⟨ha, hb, hc [("retry_after", .num 7)] 7 rfl rfl rfl⟩

/-- Counterexample for C3: the defensive fallback raised when the
attempt loop exhausts is the generic `HTTPException`, not the classified
rate-limit failure `RateLimited` the claim names. -/
theorem c3_fallback_counterexample :
    Outcome.isRateLimitedKind exhaustFallback = false ∧
    Outcome.isGenericKind exhaustFallback = true :=
  ⟨rfl, rfl⟩

/-- Claim C3 as amended: the defensive fallback after both attempts is
the generic `HTTPException` carrying status 429 and the default message
"Rate limited" — not the classified Throttled kind — and it is
unreachable: no pair of attempt responses makes `request` end with it. -/
theorem c3_fallback_generic_unreachable :
    exhaustFallback = Outcome.httpError 429 (.str "Rate limited") none ∧
    Outcome.isRateLimitedKind exhaustFallback = false ∧
    ∀ r0 r1, (request r0 r1).outcome ≠ exhaustFallback := by
  refine ⟨rfl, rfl, fun r0 r1 => ?_⟩
  unfold request
  cases h0 : attemptStep 0 r0 with
  | done o => exact attemptStep_done_ne_fallback 0 r0 o h0
  | retry t =>
    cases h1 : attemptStep 1 r1 with
    | done o => exact attemptStep_done_ne_fallback 1 r1 o h1
    | retry t2 =>
      obtain ⟨o, ho⟩ := attemptStep_one_done r1
      rw [h1] at ho
      cases ho

/-- Counterexample for C4: `get_staff` applied to a truthy non-mapping
payload (the non-empty list [1]) raises (`Staff.from_api` receives the
list unchecked and `.get` fails), instead of yielding the all-defaults
record the claim promises. -/
theorem c4_staff_truthy_nonmapping_counterexample :
    get_staff_of (some (.arr [.num 1])) = none := rfl

/-- Claim C4 as amended: every list-shaped endpoint maps a non-list
decoded payload to the empty sequence without raising, and `get_bans`
maps a non-mapping payload to the empty mapping; `get_staff`, however,
yields the all-defaults record only for falsy non-mapping payloads
(absent, null, false, 0, "", [], {}), and raises on a truthy
non-mapping payload. -/
theorem c4_nonlist_defaults (d : Option Json) :
    (isListData d = false →
      get_players_of d = some [] ∧ get_joinlogs_of d = some [] ∧
      get_killlogs_of d = some [] ∧ get_commandlogs_of d = some [] ∧
      get_modcalls_of d = some [] ∧ get_vehicles_of d = some [] ∧
      get_queue_of d = []) ∧
    (isDictData d = false →
      get_bans_of d = .obj [] ∧
      get_staff_of d =
        (if optTruthy d then none else some ⟨.arr [], .obj [], .obj []⟩)) := by
  constructor
  · intro hl
    cases d with
    | none => exact ⟨rfl, rfl, rfl, rfl, rfl, rfl, rfl⟩
    | some v =>
      cases v <;> first
        | exact ⟨rfl, rfl, rfl, rfl, rfl, rfl, rfl⟩
        | exact absurd hl (by simp [isListData])
  · intro hd
    cases d with
    | none => exact ⟨rfl, rfl⟩
    | some v =>
      cases v with
      | obj fs => exact absurd hd (by simp [isDictData])
      | null => exact ⟨rfl, rfl⟩
      | bool b =>
        refine ⟨rfl, ?_⟩
        cases b <;> rfl
      | num q =>
        refine ⟨rfl, ?_⟩
        simp only [get_staff_of, orEmptyObj, optTruthy, isTruthy]
        by_cases hq : q = 0
        · simp [hq, Staff.from_api, objGet]
        · simp [hq, Staff.from_api, bne]
      | str s =>
        refine ⟨rfl, ?_⟩
        simp only [get_staff_of, orEmptyObj, optTruthy, isTruthy]
        by_cases hs : s = ""
        · simp [hs, Staff.from_api, objGet]
        · simp [hs, Staff.from_api, bne]
      | arr xs =>
        refine ⟨rfl, ?_⟩
        simp only [get_staff_of, orEmptyObj, optTruthy, isTruthy]
        cases xs <;> simp [Staff.from_api, List.isEmpty, objGet]

/-- Witness for the amended C4: a dict payload for the list endpoints
(giving []), a string payload for `get_bans` (giving {}), a truthy
string for `get_staff` (raising) and an absent payload for `get_staff`
(giving the defaults record). -/
theorem c4_nonlist_defaults_witness :
    get_players_of (some (.obj [("a", .num 1)])) = some [] ∧
    get_queue_of (some (.obj [("a", .num 1)])) = [] ∧
    get_bans_of (some (.str "oops")) = .obj [] ∧
    get_staff_of (some (.str "oops")) = none ∧
    get_staff_of none = some ⟨.arr [], .obj [], .obj []⟩ := by
  refine ⟨?_, ?_, ?_, ?_, ?_⟩
  · exact ((c4_nonlist_defaults (some (.obj [("a", .num 1)]))).1 rfl).1
  · exact ((c4_nonlist_defaults (some (.obj [("a", .num 1)]))).1 rfl).2.2.2.2.2.2
  · exact ((c4_nonlist_defaults (some (.str "oops"))).2 rfl).1
  · exact ((c4_nonlist_defaults (some (.str "oops"))).2 rfl).2
  · exact ((c4_nonlist_defaults none).2 rfl).2

/-- Claim C7: `HTTPClient.close` releases the underlying session exactly
when the transport owns it (ownership is fixed at construction: owned
iff no session was injected) and it is present and open; a second close
after any close is a no-op that releases nothing; and `Client.close` is
likewise idempotent. -/
theorem c7_close_semantics :
    (∀ k a s, (HTTPClient.init k a s).owned_session = s.isNone) ∧
    (∀ c : HTTPClient, (HTTPClient.close c).2 = true ↔
      c.owned_session = true ∧ sessionOpen c.session = true) ∧
    (∀ c : HTTPClient, HTTPClient.close (HTTPClient.close c).1 = ((HTTPClient.close c).1, false)) ∧
    (∀ c : Client, Client.close (Client.close c).1 = ((Client.close c).1, false)) := by
  refine ⟨fun k a s => rfl, fun c => ?_, fun c => ?_, fun c => ?_⟩
  · obtain ⟨k, a, s, ow⟩ := c
    rcases s with _ | ⟨⟨sc⟩⟩
    · cases ow <;> simp [HTTPClient.close, sessionOpen]
    · cases ow <;> cases sc <;> simp [HTTPClient.close, sessionOpen]
  · obtain ⟨k, a, s, ow⟩ := c
    rcases s with _ | ⟨⟨sc⟩⟩
    · cases ow <;> simp [HTTPClient.close, sessionOpen]
    · cases ow <;> cases sc <;> simp [HTTPClient.close, sessionOpen]
  · unfold Client.close
    by_cases h : c.closed = true
    · simp [h]
    · simp [h]
      cases c.http <;> simp

/-- Replacing then looking up the same key in the handler table finds
the handler just stored. -/
theorem eventsLookup_insert (tbl : List (String × Handler)) (k : String) (hd : Handler) :
    eventsLookup (eventsInsert tbl k hd) k = some hd := by
  unfold eventsLookup eventsInsert
  have hnone : (tbl.filter (fun p => p.1 != k)).find? (fun p => p.1 == k) = none := by
    rw [List.find?_eq_none]
    intro x hx
    have hne := (List.mem_filter.mp hx).2
    simpa using hne
  rw [List.find?_append, hnone]
  simp

/-- Claim C9: registering a handler fails fast (TypeError, modelled as
`none`) exactly when the handler is not a coroutine function; a valid
handler named "on_ready" is stored as the singular ready callback, and
any other valid handler is stored in the name-keyed table under its name
(where a lookup then finds it). -/
theorem c9_event_registration (c : Client) (h : Handler) :
    (Client.event c h = none ↔ h.isCoroutineFn = false) ∧
    (h.isCoroutineFn = true → h.name = "on_ready" →
      Client.event c h = some { c with on_ready := some h }) ∧
    (h.isCoroutineFn = true → h.name ≠ "on_ready" →
      Client.event c h = some { c with events := eventsInsert c.events h.name h } ∧
      eventsLookup (eventsInsert c.events h.name h) h.name = some h) := by
  refine ⟨?_, fun hco hn => ?_, fun hco hn => ?_⟩
  · unfold Client.event
    cases hco : h.isCoroutineFn
    · simp [hco]
    · simp [hco]
      split <;> simp
  · unfold Client.event
    simp [hco, hn]
  · unfold Client.event
    simp [hco, hn]
    exact eventsLookup_insert c.events h.name h

/-- Witness for C9: a non-coroutine handler is rejected, "on_ready" is
stored as the ready callback, and "on_join" lands in the table. -/
theorem c9_event_registration_witness :
    Client.event (Client.init (some "KEY") none) ⟨"on_message", false⟩ = none ∧
    Client.event (Client.init (some "KEY") none) ⟨"on_ready", true⟩ =
      some { Client.init (some "KEY") none with on_ready := some ⟨"on_ready", true⟩ } ∧
    Client.event (Client.init (some "KEY") none) ⟨"on_join", true⟩ =
      some { Client.init (some "KEY") none with
             events := [("on_join", ⟨"on_join", true⟩)] } := by
  refine ⟨?_, ?_, ?_⟩
  · exact (c9_event_registration (Client.init (some "KEY") none) ⟨"on_message", false⟩).1.mpr rfl
  · exact (c9_event_registration (Client.init (some "KEY") none) ⟨"on_ready", true⟩).2.1 rfl rfl
  · exact ((c9_event_registration (Client.init (some "KEY") none) ⟨"on_join", true⟩).2.2
      rfl (by simp)).1

/-- Claim C10: after `Client.close()` runs on a live client the closed
flag is set and no modelled operation (event registration, a repeated
close, `_ensure_http`) ever resets it; yet because close dropped the
transport handle, `_ensure_http` — and hence any typed operation such
as `get_server` — succeeds on the closed client whenever a non-empty
server key is configured, constructing a fresh transport. -/
theorem c10_closed_flag_persists_api_alive (c : Client) (k : String)
    (hk : c.server_key = some k) (hkne : k ≠ "") (hcl : c.closed = false) :
    (Client.close c).1.closed = true ∧
    (∀ c2 h c3, Client.event c2 h = some c3 → c3.closed = c2.closed) ∧
    (∀ c2 : Client, c2.closed = true → (Client.close c2).1.closed = true) ∧
    (∀ c2 p, Client.ensure_http c2 = some p → p.1.closed = c2.closed) ∧
    Client.ensure_http (Client.close c).1 =
      some ({ (Client.close c).1 with http := some (HTTPClient.init k c.authorization none) },
            HTTPClient.init k c.authorization none) ∧
    (∀ r0 r1, Client.get_server_op (Client.close c).1 r0 r1 =
      some ({ (Client.close c).1 with http := some (HTTPClient.init k c.authorization none) },
            request r0 r1)) := by
  have hclose : (Client.close c).1 = { c with http := none, closed := true } := by
    unfold Client.close
    rw [hcl]
    simp only [Bool.false_eq_true, if_false]
    cases c.http <;> rfl
  have hensure : Client.ensure_http (Client.close c).1 =
      some ({ (Client.close c).1 with http := some (HTTPClient.init k c.authorization none) },
            HTTPClient.init k c.authorization none) := by
    rw [hclose]
    unfold Client.ensure_http
    simp [hk, hkne]
  refine ⟨by rw [hclose], ?_, ?_, ?_, hensure, ?_⟩
  · intro c2 h c3 hev
    unfold Client.event at hev
    split at hev
    · cases hev
    · split at hev <;> (cases hev; rfl)
  · intro c2 h2
    unfold Client.close
    simp [h2]
  · intro c2 p hens
    unfold Client.ensure_http at hens
    split at hens
    · cases hens; rfl
    · split at hens
      · split at hens
        · cases hens
        · cases hens; rfl
      · cases hens
  · intro r0 r1
    unfold Client.get_server_op
    rw [hensure]
    rfl

/-- Witness for C10: closing a freshly constructed client with key "KEY"
leaves the closed flag set while `_ensure_http` still succeeds with a
fresh transport. -/
theorem c10_closed_flag_persists_api_alive_witness :
    (Client.close (Client.init (some "KEY") none)).1.closed = true ∧
    Client.ensure_http (Client.close (Client.init (some "KEY") none)).1 =
      some ({ (Client.close (Client.init (some "KEY") none)).1 with
              http := some (HTTPClient.init "KEY" none none) },
            HTTPClient.init "KEY" none none) := by
  obtain ⟨h1, _, _, _, h5, _⟩ :=
    c10_closed_flag_persists_api_alive (Client.init (some "KEY") none) "KEY" rfl
      (by simp) rfl
  exact ⟨h1, h5⟩
